import Mathlib

/-!
Shallow embedding of `src/main.js`: a serverless handler that validates a JSON
request, forwards `createOrder` / `captureOrder` actions to the PayPal SDK, and
normalises every outcome into a JSON envelope.

Modelling conventions:
* JavaScript values are `JSVal`; finite numbers are exact rationals and `NaN` is
  a separate constructor (the code never produces Infinity on the paths we
  model, and amounts are validated before any arithmetic).
* Property access mirrors JS: reading a property of `null`/`undefined` throws a
  TypeError (modelled as a `JSError`; the message text approximates the V8 text
  without the quote characters), any other receiver yields the stored value or
  `undefined`.
* The PayPal SDK network call is an oracle `SDKRequest → SDKOutcome` supplied to
  the handler; the handler also returns the list of SDK requests it issued, so
  that "makes no vendor SDK call" is expressible.
-/

namespace Paypal

/-- A JavaScript runtime value, restricted to what the handler manipulates. -/
inductive JSVal where
  | null
  | undefined
  | boolean (b : Bool)
  | number (q : ℚ)
  | nan
  | string (s : String)
  | object (fields : List (String × JSVal))
  | array (elems : List JSVal)

/-- JS truthiness: `false`, `0`, `NaN`, the empty string, `null` and
`undefined` are falsy; every other value (including empty objects and arrays)
is truthy. -/
def falsy : JSVal → Bool
  | .null => true
  | .undefined => true
  | .boolean b => !b
  | .number q => q == 0
  | .nan => true
  | .string s => s == ""
  | .object _ => false
  | .array _ => false

def isString : JSVal → Bool
  | .string _ => true
  | _ => false

/-- JS strict equality of a value against a string literal (the only form of
`===` the handler uses: `switch` cases and `link.rel === ...`). True exactly
when the value is that string. -/
def isStr (v : JSVal) (s : String) : Bool :=
  match v with
  | .string t => t == s
  | _ => false

/-- Total property read: on an object, the value stored at the key (the last
occurrence wins, as JS object assignment overwrites); on any non-object
receiver the result is `undefined`. Does not model the throw on
`null`/`undefined`; see `getProp`. -/
def getPropD : JSVal → String → JSVal
  | .object fs, k =>
    match fs.reverse.find? (fun p => p.1 == k) with
    | some p => p.2
    | none => .undefined
  | _, _ => .undefined

/-- The top-level keys of an object value. -/
def topKeys : JSVal → List String
  | .object fs => fs.map Prod.fst
  | _ => []

def hasKey (v : JSVal) (k : String) : Bool := (topKeys v).contains k

/-- A thrown JavaScript error as the catch block consumes it: `message`,
an optional numeric `statusCode` (the PayPal SDK attaches HTTP status codes to
the errors it throws; errors thrown by the handler itself have none), and the
`stack` string. -/
structure JSError where
  message : String
  statusCode : Option ℚ
  stack : String
deriving DecidableEq

/-- An error constructed by `new Error(msg)` inside the handler: no
`statusCode`; the stack is modelled as the usual first stack line, since the
handler only ever forwards it opaquely. -/
def mkError (msg : String) : JSError :=
  { message := msg, statusCode := none, stack := "Error: " ++ msg }

/-- Property read as the handler performs it with plain `.` access: reading
from `null` or `undefined` throws a TypeError (message approximating the V8
text), anything else yields `getPropD`. -/
def getProp (v : JSVal) (k : String) : Except JSError JSVal :=
  match v with
  | .null => .error (mkError ("Cannot read properties of null (reading " ++ k ++ ")"))
  | .undefined =>
      .error (mkError ("Cannot read properties of undefined (reading " ++ k ++ ")"))
  | v => .ok (getPropD v k)

/-- Optional-chain read `v?.k`: `undefined` when the receiver is
`null`/`undefined`, otherwise an ordinary property read. -/
def optChain (v : JSVal) (k : String) : JSVal :=
  match v with
  | .null => .undefined
  | .undefined => .undefined
  | v => getPropD v k

/-- The rational `m * 10 ^ k`, built directly from integer arithmetic (the
field operations of `Rat` are irreducible, so the model constructs each number
once instead of composing them). -/
def decToRat (m : ℤ) (k : ℤ) : ℚ :=
  if 0 ≤ k then ((m * 10 ^ k.toNat : ℤ) : ℚ) else mkRat m (10 ^ (-k).toNat)

/-- Decimal digits of the fraction `n / d` (with `0 ≤ n < d`), at most `fuel`
of them, stopping when the remainder is zero (enough for the terminating
decimals the model prints; JS prints the shortest round-tripping form of a
double, which agrees on those). -/
def fracDigitChars : Nat → ℤ → ℤ → List Char
  | 0, _, _ => []
  | fuel + 1, n, d =>
      if n == 0 then []
      else
        let dig := (10 * n).ediv d
        Char.ofNat (dig.toNat + 48) :: fracDigitChars fuel (10 * n - dig * d) d

/-- JS `String(…)` on a finite number, for the decimals this model meets:
integers print exactly; other rationals print an integer part, a dot and up to
20 fractional digits. -/
def ratToJsString (q : ℚ) : String :=
  if q.den == 1 then toString q.num
  else
    let sign := if q.num < 0 then "-" else ""
    let n : ℤ := (q.num.natAbs : ℤ)
    let d : ℤ := (q.den : ℤ)
    sign ++ toString (n.ediv d) ++ "." ++ String.mk (fracDigitChars 20 (n - n.ediv d * d) d)

mutual

/-- JS `String(v)` (ToString): arrays print as the comma join of their
elements. -/
def jsToString : JSVal → String
  | .null => "null"
  | .undefined => "undefined"
  | .boolean b => if b then "true" else "false"
  | .nan => "NaN"
  | .number q => ratToJsString q
  | .string s => s
  | .object _ => "[object Object]"
  | .array xs => jsJoin xs

/-- One array element inside a join: `null` and `undefined` print as the empty
string (as in `Array.prototype.join`); everything else as `jsToString`. -/
def jsElem : JSVal → String
  | .null => ""
  | .undefined => ""
  | .boolean b => if b then "true" else "false"
  | .nan => "NaN"
  | .number q => ratToJsString q
  | .string s => s
  | .object _ => "[object Object]"
  | .array xs => jsJoin xs

/-- Comma join of array elements. -/
def jsJoin : List JSVal → String
  | [] => ""
  | v :: vs => jsElem v ++ (if vs.isEmpty then "" else ",") ++ jsJoin vs

end

def isDigitChar (c : Char) : Bool := '0' ≤ c && c ≤ '9'

def digitsToNat (ds : List Char) : Nat :=
  ds.foldl (fun a c => a * 10 + (c.toNat - 48)) 0

/-- The exponent suffix accepted by `parseFloat` after `e`/`E`: an optional
sign and at least one digit; anything else contributes exponent 0 (JS stops at
the longest valid numeric-literal prefix, so `"1e"` parses as `1`). -/
def parseFloatExp (cs : List Char) : ℤ :=
  let (esign, cs) : ℤ × List Char :=
    match cs with
    | '-' :: r => (-1, r)
    | '+' :: r => (1, r)
    | r => (1, r)
  let ds := cs.takeWhile isDigitChar
  if ds.isEmpty then 0 else esign * (digitsToNat ds : ℤ)

/-- JS `parseFloat` on a string: skip leading whitespace, an optional sign,
then the longest decimal-literal prefix (digits, an optional dot with more
digits, an optional exponent). `none` models `NaN` (no digits at all; the
`Infinity` literal is not modelled — no request the claims quantify over
produces it). -/
def parseFloatString (s : String) : Option ℚ :=
  let cs := s.toList.dropWhile (fun c => c == ' ' || c == '\t' || c == '\n' || c == '\r')
  let (sign, cs) : ℤ × List Char :=
    match cs with
    | '-' :: r => (-1, r)
    | '+' :: r => (1, r)
    | r => (1, r)
  let intDs := cs.takeWhile isDigitChar
  let rest := cs.dropWhile isDigitChar
  let (fracDs, rest2) : List Char × List Char :=
    match rest with
    | '.' :: r => (r.takeWhile isDigitChar, r.dropWhile isDigitChar)
    | r => ([], r)
  if intDs.isEmpty && fracDs.isEmpty then none
  else
    -- the literal denotes (intDigits.fracDigits) * 10^exp, i.e. the digit
    -- string read as an integer, scaled by 10^(exp - number of fraction digits)
    let e : ℤ :=
      match rest2 with
      | c :: r => if c == 'e' || c == 'E' then parseFloatExp r else 0
      | [] => 0
    some (decToRat (sign * (digitsToNat (intDs ++ fracDs) : ℤ)) (e - fracDs.length))

/-- JS `parseFloat(v)`: the argument is converted to a string first; a number
passes through unchanged (string round-trip is the identity on doubles) and
`NaN` stays `NaN`. `none` models `NaN`. -/
def jsParseFloat : JSVal → Option ℚ
  | .number q => some q
  | .nan => none
  | .string s => parseFloatString s
  | v => parseFloatString (jsToString v)

/-- JS `Number.prototype.toFixed(2)` on a finite number: the integer `n`
minimising the distance of `n / 100` to the value, ties away from zero toward
plus infinity, printed with exactly two fraction digits. (The exponential form
for magnitudes at and above 1e21 is not modelled; validated amounts never
reach it.) -/
def toFixed2 (q : ℚ) : String :=
  -- n = floor(q * 100 + 1/2) = floor((200 num + den) / (2 den))
  let n : ℤ := (200 * q.num + q.den).ediv (2 * q.den)
  let sign := if n < 0 then "-" else ""
  let m := n.natAbs
  let fr := m % 100
  sign ++ toString (m / 100) ++ "." ++ (if fr < 10 then "0" else "") ++ toString fr

/-- The regular expression `^[A-Z0-9]{17}$` from the captureOrder branch,
applied (as `RegExp.test` does) to the string form of the argument. -/
def orderIdPattern (s : String) : Bool :=
  s.length == 17 && s.toList.all (fun c => ('A' ≤ c && c ≤ 'Z') || ('0' ≤ c && c ≤ '9'))

/-! ### JSON.parse

A total recursive-descent reader for RFC 8259 JSON, fuel-indexed for totality
(the fuel supplied by `jsonParse` is ample for any input of the given length).
`none` models the SyntaxError that `JSON.parse` throws. Numbers are kept as
exact rationals. A `\uXXXX` escape denoting a surrogate half is mapped to the
null character, which no claim exercises. -/

def jsonWsChar (c : Char) : Bool := c == ' ' || c == '\t' || c == '\n' || c == '\r'

def skipJsonWs (cs : List Char) : List Char := cs.dropWhile jsonWsChar

def hexDigitVal (c : Char) : Option Nat :=
  if '0' ≤ c && c ≤ '9' then some (c.toNat - 48)
  else if 'a' ≤ c && c ≤ 'f' then some (c.toNat - 97 + 10)
  else if 'A' ≤ c && c ≤ 'F' then some (c.toNat - 65 + 10)
  else none

/-- The characters of a JSON string body after the opening quote, decoding
escapes, up to and including the closing quote. -/
def jsonStrChars : Nat → List Char → Option (List Char × List Char)
  | 0, _ => none
  | _, [] => none
  | fuel + 1, c :: rest =>
    if c == '"' then some ([], rest)
    else if c == '\\' then
      match rest with
      | [] => none
      | e :: rest2 =>
        let dec : Option (Char × List Char) :=
          if e == '"' then some ('"', rest2)
          else if e == '\\' then some ('\\', rest2)
          else if e == '/' then some ('/', rest2)
          else if e == 'b' then some ('\x08', rest2)
          else if e == 'f' then some ('\x0c', rest2)
          else if e == 'n' then some ('\n', rest2)
          else if e == 'r' then some ('\r', rest2)
          else if e == 't' then some ('\t', rest2)
          else if e == 'u' then
            match rest2 with
            | h1 :: h2 :: h3 :: h4 :: rest3 =>
              match hexDigitVal h1, hexDigitVal h2, hexDigitVal h3, hexDigitVal h4 with
              | some a, some b, some c2, some d =>
                  some (Char.ofNat (((a * 16 + b) * 16 + c2) * 16 + d), rest3)
              | _, _, _, _ => none
            | _ => none
          else none
        match dec with
        | none => none
        | some (ch, r) =>
          match jsonStrChars fuel r with
          | none => none
          | some (s, r2) => some (ch :: s, r2)
    else if c.toNat < 32 then none
    else
      match jsonStrChars fuel rest with
      | none => none
      | some (s, r2) => some (c :: s, r2)

/-- The integer part of a JSON number: a single `0`, or a nonzero digit
followed by digits (JSON forbids leading zeros). -/
def jsonIntPart (cs : List Char) : Option (Nat × List Char) :=
  match cs with
  | '0' :: rest => some (0, rest)
  | c :: _ =>
    if isDigitChar c then
      some (digitsToNat (cs.takeWhile isDigitChar), cs.dropWhile isDigitChar)
    else none
  | [] => none

/-- A JSON number after the optional minus sign handled by the caller: the
digit string (integer and fraction digits) read as an integer, scaled by
10^(exponent - number of fraction digits). -/
def jsonNumTail (cs : List Char) : Option (ℚ × List Char) :=
  match jsonIntPart cs with
  | none => none
  | some (ip, rest) =>
    let (frDs, rest2) : List Char × List Char :=
      match rest with
      | '.' :: r => (r.takeWhile isDigitChar, r.dropWhile isDigitChar)
      | r => ([], r)
    let frOk : Bool :=
      match rest with
      | '.' :: _ => !frDs.isEmpty
      | _ => true
    if !frOk then none
    else
      let m : ℤ := (ip * 10 ^ frDs.length + digitsToNat frDs : ℕ)
      match rest2 with
      | c :: r =>
        if c == 'e' || c == 'E' then
          let (esign, r2) : ℤ × List Char :=
            match r with
            | '-' :: rr => (-1, rr)
            | '+' :: rr => (1, rr)
            | rr => (1, rr)
          let ds := r2.takeWhile isDigitChar
          if ds.isEmpty then none
          else some (decToRat m (esign * (digitsToNat ds : ℤ) - frDs.length),
                     r2.dropWhile isDigitChar)
        else some (decToRat m (-(frDs.length : ℤ)), rest2)
      | [] => some (decToRat m (-(frDs.length : ℤ)), [])

mutual

/-- One JSON value, consuming leading whitespace. -/
def jsonValue : Nat → List Char → Option (JSVal × List Char)
  | 0, _ => none
  | fuel + 1, cs =>
    match skipJsonWs cs with
    | [] => none
    | c :: rest =>
      if c == 'n' then
        match rest with
        | 'u' :: 'l' :: 'l' :: r => some (.null, r)
        | _ => none
      else if c == 't' then
        match rest with
        | 'r' :: 'u' :: 'e' :: r => some (.boolean true, r)
        | _ => none
      else if c == 'f' then
        match rest with
        | 'a' :: 'l' :: 's' :: 'e' :: r => some (.boolean false, r)
        | _ => none
      else if c == '"' then
        match jsonStrChars (rest.length + 1) rest with
        | none => none
        | some (s, r) => some (.string (String.mk s), r)
      else if c == '[' then
        match skipJsonWs rest with
        | ']' :: r => some (.array [], r)
        | r => match jsonElems fuel r with
               | none => none
               | some (vs, r2) => some (.array vs, r2)
      else if c == '\x7b' then
        match skipJsonWs rest with
        | '\x7d' :: r => some (.object [], r)
        | r => match jsonMembers fuel r with
               | none => none
               | some (ms, r2) => some (.object ms, r2)
      else if c == '-' then
        match jsonNumTail rest with
        | none => none
        | some (q, r) => some (.number (-q), r)
      else
        match jsonNumTail (c :: rest) with
        | none => none
        | some (q, r) => some (.number q, r)

/-- Nonempty comma-separated array elements up to and including `]`. -/
def jsonElems : Nat → List Char → Option (List JSVal × List Char)
  | 0, _ => none
  | fuel + 1, cs =>
    match jsonValue fuel cs with
    | none => none
    | some (v, r) =>
      match skipJsonWs r with
      | ',' :: r2 =>
        match jsonElems fuel r2 with
        | none => none
        | some (vs, r3) => some (v :: vs, r3)
      | ']' :: r2 => some ([v], r2)
      | _ => none

/-- Nonempty comma-separated object members up to and including the closing
brace. -/
def jsonMembers : Nat → List Char → Option (List (String × JSVal) × List Char)
  | 0, _ => none
  | fuel + 1, cs =>
    match skipJsonWs cs with
    | '"' :: r =>
      match jsonStrChars (r.length + 1) r with
      | none => none
      | some (k, r2) =>
        match skipJsonWs r2 with
        | ':' :: r3 =>
          match jsonValue fuel r3 with
          | none => none
          | some (v, r4) =>
            match skipJsonWs r4 with
            | ',' :: r5 =>
              match jsonMembers fuel r5 with
              | none => none
              | some (ms, r6) => some ((String.mk k, v) :: ms, r6)
            | '\x7d' :: r5 => some ([(String.mk k, v)], r5)
            | _ => none
        | _ => none
    | _ => none

end

/-- JS `JSON.parse(s)`: `none` models the thrown SyntaxError. -/
def jsonParse (s : String) : Option JSVal :=
  match jsonValue (2 * s.length + 4) s.toList with
  | none => none
  | some (v, rest) =>
    match skipJsonWs rest with
    | [] => some v
    | _ => none

/-! ### The program (src/main.js) -/

/-- The process environment, restricted to the variables the handler reads.
`none` models an unset variable. -/
structure Env where
  PAYPAL_CLIENT_ID : Option String
  PAYPAL_SECRET : Option String
  PAYPAL_ENVIRONMENT : Option String
  NODE_ENV : Option String
deriving DecidableEq

/-- `process.env.X` as a JS value: `undefined` when unset. -/
def envVar : Option String → JSVal
  | none => .undefined
  | some s => .string s

/-- The two SDK environments of lines 11-13. -/
inductive PayPalEnvKind where
  | live
  | sandbox
deriving DecidableEq

/-- The PayPal HTTP client: all that is observable of it in this program is
which environment it was built with. -/
structure PayPalClient where
  environment : PayPalEnvKind
deriving DecidableEq

/-- `createPayPalClient` (lines 3-16): throws when either credential variable
is unset or empty, otherwise builds a client for the live environment exactly
when `PAYPAL_ENVIRONMENT` is `production`, sandbox otherwise. -/
def createPayPalClient (env : Env) : Except JSError PayPalClient :=
  let clientId := envVar env.PAYPAL_CLIENT_ID
  let clientSecret := envVar env.PAYPAL_SECRET
  if falsy clientId || falsy clientSecret then
    .error (mkError "PayPal credentials not configured")
  else
    .ok { environment :=
            if isStr (envVar env.PAYPAL_ENVIRONMENT) "production" then .live else .sandbox }

/-- A request object handed to `paypalClient.execute`. -/
inductive SDKRequest where
  | create (prefer : String) (requestBody : JSVal)
  | capture (orderId : JSVal) (requestBody : JSVal)

/-- The outcome of the awaited `paypalClient.execute` call: the resolved
response value, or the thrown/rejected error. -/
inductive SDKOutcome where
  | ok (response : JSVal)
  | err (e : JSError)

/-- A fixed error envelope `status / code / message` as returned by the early
validation paths. -/
def errJson (code : ℚ) (msg : String) : JSVal :=
  .object [("status", .string "error"), ("code", .number code), ("message", .string msg)]

/-- The `requestBody` of the OrdersCreateRequest (lines 68-82), as a function
of `payload.data.currency` and the validated amount. -/
def orderCreateBody (currency : JSVal) (amount : ℚ) : JSVal :=
  .object [
    ("intent", .string "CAPTURE"),
    ("application_context", .object [
      ("shipping_preference", .string "NO_SHIPPING"),
      ("user_action", .string "PAY_NOW"),
      ("return_url", .string "digitalevdoctor://payment-success"),
      ("cancel_url", .string "digitalevdoctor://payment-canceled")]),
    ("purchase_units", .array [
      .object [("amount", .object [
        ("currency_code", if falsy currency then .string "EUR" else currency),
        ("value", .string (toFixed2 amount))])]])]

/-- `links.find(link => link.rel === "approve")` over the element list:
first match, `undefined` when none; reading `rel` off a `null`/`undefined`
element throws. -/
def findApprove : List JSVal → Except JSError JSVal
  | [] => .ok .undefined
  | l :: ls =>
    match getProp l "rel" with
    | .error e => .error e
    | .ok r => if isStr r "approve" then .ok l else findApprove ls

/-- The call `createResponse.result.links.find(...)` applied to the value of
`links`: a TypeError unless `links` is an array (reading `find` off
`null`/`undefined`, or calling the `undefined` member of anything else). -/
def linksFindApprove : JSVal → Except JSError JSVal
  | .array ls => findApprove ls
  | .null => .error (mkError "Cannot read properties of null (reading find)")
  | .undefined => .error (mkError "Cannot read properties of undefined (reading find)")
  | _ => .error (mkError "createResponse.result.links.find is not a function")

/-- Lines 43-141: everything inside the try block after the payload exists.
Returns the response produced by a plain `return` (`Except.ok`) or the thrown
error (`Except.error`), together with the list of SDK calls issued. -/
def mainBody (env : Env) (payload : JSVal) (sdk : SDKRequest → SDKOutcome) :
    Except JSError JSVal × List SDKRequest :=
  -- if (!payload.action || !payload.data)
  match getProp payload "action" with
  | .error e => (.error e, [])
  | .ok act =>
  if falsy act then (.ok (errJson 400 "Missing action or data parameter"), []) else
  match getProp payload "data" with
  | .error e => (.error e, [])
  | .ok data =>
  if falsy data then (.ok (errJson 400 "Missing action or data parameter"), []) else
  -- const paypalClient = createPayPalClient(context)
  match createPayPalClient env with
  | .error e => (.error e, [])
  | .ok _paypalClient =>
  -- switch (payload.action)
  if isStr act "createOrder" then
    match getProp data "amount" with
    | .error e => (.error e, [])
    | .ok amountRaw =>
    match jsParseFloat amountRaw with
    | none => (.ok (errJson 400 "Invalid amount specified"), [])
    | some amount =>
    if amount ≤ 0 then (.ok (errJson 400 "Invalid amount specified"), [])
    else
      match getProp data "currency" with
      | .error e => (.error e, [])
      | .ok currency =>
      -- const createRequest = OrdersCreateRequest, prefer, requestBody; execute
      match sdk (.create "return=representation" (orderCreateBody currency amount)) with
      | .err e => (.error e, [.create "return=representation" (orderCreateBody currency amount)])
      | .ok createResponse =>
      match getProp createResponse "result" with
      | .error e => (.error e, [.create "return=representation" (orderCreateBody currency amount)])
      | .ok result =>
      match getProp result "links" with
      | .error e => (.error e, [.create "return=representation" (orderCreateBody currency amount)])
      | .ok links =>
      match linksFindApprove links with
      | .error e => (.error e, [.create "return=representation" (orderCreateBody currency amount)])
      | .ok approvalLink =>
      if falsy (optChain approvalLink "href") then
        (.error (mkError "Missing approval URL in PayPal response"),
         [.create "return=representation" (orderCreateBody currency amount)])
      else
        -- result and approvalLink are non-null here (their properties were
        -- just read or found truthy), so the remaining reads cannot throw
        (.ok (.object [
          ("status", .string "success"),
          ("data", .object [
            ("orderId", getPropD result "id"),
            ("approvalUrl", getPropD approvalLink "href"),
            ("status", getPropD result "status")])]),
         [.create "return=representation" (orderCreateBody currency amount)])
  else if isStr act "captureOrder" then
    match getProp data "orderId" with
    | .error e => (.error e, [])
    | .ok orderId =>
    if falsy orderId || !(orderIdPattern (jsToString orderId)) then
      (.ok (errJson 400 "Invalid order ID"), [])
    else
      -- const captureRequest = OrdersCaptureRequest(orderId), empty body; execute
      match sdk (.capture orderId (.object [])) with
      | .err e => (.error e, [.capture orderId (.object [])])
      | .ok captureResponse =>
      if falsy (optChain (optChain captureResponse "result") "id") then
        (.error (mkError "Incomplete capture response from PayPal"),
         [.capture orderId (.object [])])
      else
        -- captureResponse and its result are non-null here, since
        -- captureResponse?.result?.id was truthy
        (.ok (.object [
          ("status", .string "success"),
          ("data", .object [
            ("captureId", getPropD (getPropD captureResponse "result") "id"),
            ("status", getPropD (getPropD captureResponse "result") "status"),
            ("details", .object [
              ("payer", getPropD (getPropD captureResponse "result") "payer"),
              ("create_time", getPropD (getPropD captureResponse "result") "create_time"),
              ("purchase_units", getPropD (getPropD captureResponse "result") "purchase_units")])])]),
         [.capture orderId (.object [])])
  else
    (.ok (errJson 400 "Unsupported action"), [])

/-- The catch block (lines 142-151): HTTP-like code from a truthy
`error.statusCode` (falling back to 500), the message from a nonempty
`error.message` (falling back to `Internal server error`), and the stack under
a `debug` key unless `NODE_ENV` is `production`. -/
def catchResponse (env : Env) (e : JSError) : JSVal :=
  .object ([
    ("status", .string "error"),
    ("code", .number (match e.statusCode with
                      | some c => if c == 0 then 500 else c
                      | none => 500)),
    ("message", .string (if e.message == "" then "Internal server error" else e.message))] ++
    (if env.NODE_ENV == some "production" then [] else [("debug", .string e.stack)]))

/-- The try/catch around the post-parse stage: a thrown error becomes the
catch-block envelope. -/
def runMain (env : Env) (payload : JSVal) (sdk : SDKRequest → SDKOutcome) :
    JSVal × List SDKRequest :=
  match mainBody env payload sdk with
  | (.ok resp, tr) => (resp, tr)
  | (.error e, tr) => (catchResponse env e, tr)

/-- Lines 21-41: the body-required check and the parse step. A falsy body is
rejected; a string body goes through `JSON.parse` (a parse failure is the
fixed 400); any other body is used as the payload directly. `Except.error`
carries the early response. -/
def parsePayload (body : JSVal) : Except JSVal JSVal :=
  if falsy body then .error (errJson 400 "Request body is required")
  else
    match body with
    | .string s =>
      match jsonParse s with
      | some v => .ok v
      | none => .error (errJson 400 "Invalid JSON format")
    | v => .ok v

/-- The exported handler (lines 18-152): the response value passed to
`context.res.json`, plus the list of SDK calls issued (the `context.error`
log call is a side effect with no bearing on the response and is not
modelled). -/
def handler (env : Env) (body : JSVal) (sdk : SDKRequest → SDKOutcome) :
    JSVal × List SDKRequest :=
  match parsePayload body with
  | .error resp => (resp, [])
  | .ok payload => runMain env payload sdk

/-! ### Spec-side predicates -/

/-- Both credential variables are set and nonempty (the condition under which
`createPayPalClient` succeeds). -/
def credsOK (env : Env) : Bool :=
  !falsy (envVar env.PAYPAL_CLIENT_ID) && !falsy (envVar env.PAYPAL_SECRET)

/-- The envelope discipline every response obeys: an error envelope with keys
`status, code, message` (optionally followed by `debug`), or a success
envelope with keys `status, data`, the `status` value matching. -/
def envelopeOK (v : JSVal) : Bool :=
  (topKeys v == ["status", "code", "message"] && isStr (getPropD v "status") "error")
  || (topKeys v == ["status", "code", "message", "debug"] && isStr (getPropD v "status") "error")
  || (topKeys v == ["status", "data"] && isStr (getPropD v "status") "success")

/-- The amount object of the single purchase unit of an order-create request
body. -/
def purchaseUnitAmount (b : JSVal) : JSVal :=
  match getPropD b "purchase_units" with
  | .array [u] => getPropD u "amount"
  | _ => .undefined

/-- The error thrown by the try block, when it threw (a decidable projection
of the try-block outcome; `none` when the try block returned normally). -/
def mainErr (x : Except JSError JSVal × List SDKRequest) : Option JSError :=
  match x.1 with
  | .error e => some e
  | .ok _ => none

/-- The parse stage never emits a `debug` field in its early responses. -/
def noDebugParse : Except JSVal JSVal → Bool
  | .error r => !(hasKey r "debug")
  | .ok _ => true

/-- A normal return of the try block never carries a `debug` field. -/
def noDebugOk : Except JSError JSVal → Bool
  | .ok r => !(hasKey r "debug")
  | .error _ => true

/-! ### Helper lemmas -/

/-- Values whose string forms differ, differ. -/
theorem ne_of_jsToString_ne {a b : JSVal} (h : jsToString a ≠ jsToString b) : a ≠ b :=
  fun e => h (congrArg jsToString e)

/-- Objects whose values at some key have different string forms, differ. -/
theorem ne_of_key_ne (k : String) {a b : JSVal}
    (h : jsToString (getPropD a k) ≠ jsToString (getPropD b k)) : a ≠ b :=
  fun e => h (congrArg (fun v => jsToString (getPropD v k)) e)

/-- A value with a string-valued property is an object. -/
theorem eq_object_of_getPropD_string {v : JSVal} {k s : String}
    (h : getPropD v k = .string s) : ∃ fs, v = .object fs := by
  cases v
  case object fs => exact ⟨fs, rfl⟩
  all_goals simp [getPropD] at h

/-- Property access on a truthy value cannot throw. -/
theorem getProp_of_not_falsy {v : JSVal} (h : falsy v = false) (k : String) :
    getProp v k = .ok (getPropD v k) := by
  cases v <;> first
    | rfl
    | simp [falsy] at h

/-- Property access throws only on `null` and `undefined`. -/
theorem getProp_of_ne {v : JSVal} (hn : v ≠ .null) (hu : v ≠ .undefined) (k : String) :
    getProp v k = .ok (getPropD v k) := by
  cases v <;> first
    | rfl
    | exact absurd rfl hn
    | exact absurd rfl hu

/-- Only an object can have a truthy property. -/
theorem eq_object_of_truthy_prop {v : JSVal} {k : String}
    (h : falsy (getPropD v k) = false) : ∃ fs, v = .object fs := by
  cases v
  case object fs => exact ⟨fs, rfl⟩
  all_goals simp [getPropD, falsy] at h

/-- Property access on an object cannot throw. -/
theorem getProp_object (fs : List (String × JSVal)) (k : String) :
    getProp (.object fs) k = .ok (getPropD (.object fs) k) := rfl

/-- The fixed validation envelopes respect the envelope discipline. -/
theorem envelopeOK_errJson (c : ℚ) (m : String) : envelopeOK (errJson c m) = true := rfl

/-- The catch-block envelope respects the envelope discipline. -/
theorem envelopeOK_catchResponse (env : Env) (e : JSError) :
    envelopeOK (catchResponse env e) = true := by
  unfold catchResponse
  repeat' split
  all_goals rfl

/-- When `createPayPalClient` succeeds it yields the client for the configured
environment. -/
theorem createPayPalClient_ok {env : Env} (h : credsOK env = true) :
    createPayPalClient env =
      .ok ⟨if isStr (envVar env.PAYPAL_ENVIRONMENT) "production" then .live else .sandbox⟩ := by
  simp only [credsOK, Bool.and_eq_true, Bool.not_eq_true'] at h
  simp [createPayPalClient, h.1, h.2]

/-- When a credential is missing or empty, `createPayPalClient` throws. -/
theorem createPayPalClient_err {env : Env} (h : credsOK env = false) :
    createPayPalClient env = .error (mkError "PayPal credentials not configured") := by
  cases hA : falsy (envVar env.PAYPAL_CLIENT_ID) <;>
    cases hB : falsy (envVar env.PAYPAL_SECRET)
  · simp [credsOK, hA, hB] at h
  all_goals simp [createPayPalClient, hA, hB]

/-- The catch block does not change which SDK calls were issued. -/
theorem runMain_snd (env : Env) (p : JSVal) (sdk : SDKRequest → SDKOutcome) :
    (runMain env p sdk).2 = (mainBody env p sdk).2 := by
  unfold runMain
  split
  · next resp tr heq => rw [heq]
  · next e tr heq => rw [heq]

/-- The envelope discipline for the try-block result: responses returned by a
plain `return` obey it, thrown errors are exempt (the catch block shapes
those). -/
def exceptRespOK : Except JSError JSVal → Bool
  | .ok r => envelopeOK r
  | .error _ => true

/-- The envelope discipline for the parse stage: early responses obey it. -/
def payloadRespOK : Except JSVal JSVal → Bool
  | .error r => envelopeOK r
  | .ok _ => true

/-- Every response the try block returns directly obeys the envelope
discipline. -/
theorem mainBody_respOK (env : Env) (payload : JSVal) (sdk : SDKRequest → SDKOutcome) :
    exceptRespOK (mainBody env payload sdk).1 = true := by
  unfold mainBody
  repeat' split
  all_goals rfl

/-- Every early response of the parse stage obeys the envelope discipline. -/
theorem parsePayload_respOK (body : JSVal) :
    payloadRespOK (parsePayload body) = true := by
  unfold parsePayload
  repeat' split
  all_goals rfl

/-- No early response of the parse stage carries a `debug` key. -/
theorem parsePayload_noDebug (body : JSVal) : noDebugParse (parsePayload body) = true := by
  unfold parsePayload
  repeat' split
  all_goals rfl

/-- No response the try block returns normally carries a `debug` key. -/
theorem mainBody_noDebug (env : Env) (payload : JSVal) (sdk : SDKRequest → SDKOutcome) :
    noDebugOk (mainBody env payload sdk).1 = true := by
  unfold mainBody
  repeat' split
  all_goals rfl

/-- The catch-block envelope carries a `debug` key exactly when `NODE_ENV` is
not `production`. -/
theorem catchResponse_debug_key (env : Env) (e : JSError) :
    hasKey (catchResponse env e) "debug" = !(env.NODE_ENV == some "production") := by
  unfold catchResponse
  cases hB : (env.NODE_ENV == some "production") <;> rfl

/-- The `debug` value of the catch-block envelope is the stack of the caught
error (absent, that is `undefined`, in production). -/
theorem catchResponse_debug_val (env : Env) (e : JSError) :
    getPropD (catchResponse env e) "debug" =
      (if env.NODE_ENV == some "production" then JSVal.undefined else .string e.stack) := by
  unfold catchResponse
  cases hB : (env.NODE_ENV == some "production") <;> rfl

/-- When the try block throws, the handler answers with the catch-block
envelope for the thrown error. -/
theorem handler_catch {env : Env} {body payload : JSVal} {sdk : SDKRequest → SDKOutcome}
    {e : JSError} (hp : parsePayload body = .ok payload)
    (hm : mainErr (mainBody env payload sdk) = some e) :
    (handler env body sdk).1 = catchResponse env e := by
  unfold mainErr at hm
  simp only [handler, hp]
  unfold runMain
  split
  · next r tr heq => rw [heq] at hm; simp at hm
  · next e2 tr heq =>
      rw [heq] at hm
      simp only [Option.some.injEq] at hm
      rw [hm]

/-! ### Shared concrete inputs for witnesses and counterexamples -/

/-- Credentials configured, production mode. -/
def envProd : Env := ⟨some "id", some "secret", none, some "production"⟩

/-- Credentials configured, no NODE_ENV. -/
def envDev : Env := ⟨some "id", some "secret", none, none⟩

/-- Nothing configured. -/
def envUnset : Env := ⟨none, none, none, none⟩

/-- A well-formed createOrder payload (amount 10, currency USD). -/
def createOrderPayload : JSVal :=
  .object [("action", .string "createOrder"),
           ("data", .object [("amount", .string "10"), ("currency", .string "USD")])]

/-- A createOrder payload with a negative amount. -/
def badAmountPayload : JSVal :=
  .object [("action", .string "createOrder"),
           ("data", .object [("amount", .string "-5")])]

/-- A captureOrder payload with a malformed order id. -/
def badOrderIdPayload : JSVal :=
  .object [("action", .string "captureOrder"),
           ("data", .object [("orderId", .string "bad")])]

/-- A payload with an action but no data. -/
def missingDataPayload : JSVal := .object [("action", .string "x")]

/-- A payload whose action is not one of the two supported ones. -/
def unknownActionPayload : JSVal :=
  .object [("action", .string "deleteOrder"), ("data", .number 1)]

/-- An SDK oracle that resolves to `undefined` (its value is irrelevant on the
paths that use it). -/
def sdkUndef : SDKRequest → SDKOutcome := fun _ => .ok .undefined

/-- An SDK oracle that rejects with a statusCode-bearing error. -/
def sdk402 : SDKRequest → SDKOutcome := fun _ => .err ⟨"boom", some 402, "stk"⟩

/-- An SDK oracle that rejects with a degenerate error: empty message and a
statusCode of 0 (both falsy). -/
def sdkZero : SDKRequest → SDKOutcome := fun _ => .err ⟨"", some 0, "stk"⟩

/-- An SDK oracle that resolves with a result that has no `links` at all. -/
def sdkNoLinks : SDKRequest → SDKOutcome :=
  fun _ => .ok (.object [("result", .object [("id", .string "X")])])

/-- An SDK oracle that resolves with an empty `links` array. -/
def sdkEmptyLinks : SDKRequest → SDKOutcome :=
  fun _ => .ok (.object [("result", .object [("links", .array [])])])

/-! ### C1 -/

/-- C1, counterexample. The claim says every response carries only fields from
status, code, message, data. With credentials unset and `NODE_ENV` not
`production`, a structurally valid request reaches the catch block, whose
response also carries a `debug` field, so the key set is not contained in the
claimed four. -/
theorem c1_counterexample :
    ((topKeys (handler envUnset createOrderPayload sdkUndef).1).all
      (fun k => ["status", "code", "message", "data"].contains k)) = false := by
  decide

/-- C1, amended: every response, for every input and outcome, is a JSON
envelope whose fields are drawn from status, code, message, data, debug; error
responses carry status `error` plus code and message, success responses carry
status `success` plus data, and no other field appears. A `debug` field is
present exactly when the response was produced by the catch block (the parse
stage threw nothing and the try block threw) and `NODE_ENV` is not
`production`, and then its value is the stack of the caught error. -/
theorem c1_envelope (env : Env) (body : JSVal) (sdk : SDKRequest → SDKOutcome) :
    envelopeOK (handler env body sdk).1 = true ∧
    (∀ r, parsePayload body = .error r → hasKey (handler env body sdk).1 "debug" = false) ∧
    (∀ payload, parsePayload body = .ok payload →
      (mainErr (mainBody env payload sdk) = none →
         hasKey (handler env body sdk).1 "debug" = false) ∧
      (∀ e, mainErr (mainBody env payload sdk) = some e →
         hasKey (handler env body sdk).1 "debug" = !(env.NODE_ENV == some "production") ∧
         getPropD (handler env body sdk).1 "debug" =
           (if env.NODE_ENV == some "production" then JSVal.undefined else .string e.stack))) := by
  refine ⟨?_, ?_, ?_⟩
  · have hp := parsePayload_respOK body
    unfold handler
    split
    · next r heq => rw [heq] at hp; simpa [payloadRespOK] using hp
    · next p heq =>
        have hm := mainBody_respOK env p sdk
        unfold runMain
        split
        · next resp tr heq2 => rw [heq2] at hm; simpa [exceptRespOK] using hm
        · next e tr heq2 => exact envelopeOK_catchResponse env e
  · intro r hr
    have h := parsePayload_noDebug body
    rw [hr] at h
    simp only [noDebugParse, Bool.not_eq_true'] at h
    simp only [handler, hr]
    exact h
  · intro payload hp
    constructor
    · intro hnone
      unfold mainErr at hnone
      have h := mainBody_noDebug env payload sdk
      simp only [handler, hp]
      unfold runMain
      split
      · next resp tr heq =>
          rw [heq] at h
          simpa [noDebugOk, Bool.not_eq_true'] using h
      · next e tr heq =>
          rw [heq] at hnone
          simp at hnone
    · intro e he
      have h1 := handler_catch hp he
      rw [h1]
      exact ⟨catchResponse_debug_key env e, catchResponse_debug_val env e⟩

/-- C1, witness: the field discipline on a caught-error response; no debug key
on a parse-stage response (`undefined` body) nor on a normal 400 return (bad
amount); with credentials unset and `NODE_ENV` unset the catch response has a
debug key holding the stack of the credential error. -/
theorem c1_envelope_witness :
    envelopeOK (handler envUnset createOrderPayload sdkUndef).1 = true ∧
    hasKey (handler envProd JSVal.undefined sdkUndef).1 "debug" = false ∧
    hasKey (handler envDev badAmountPayload sdkUndef).1 "debug" = false ∧
    hasKey (handler envUnset createOrderPayload sdkUndef).1 "debug" = true ∧
    getPropD (handler envUnset createOrderPayload sdkUndef).1 "debug" =
      .string (mkError "PayPal credentials not configured").stack := by
  refine ⟨(c1_envelope envUnset createOrderPayload sdkUndef).1, ?_, ?_, ?_, ?_⟩
  · exact (c1_envelope envProd JSVal.undefined sdkUndef).2.1
      (errJson 400 "Request body is required") rfl
  · exact ((c1_envelope envDev badAmountPayload sdkUndef).2.2 badAmountPayload rfl).1
      (by decide)
  · exact (((c1_envelope envUnset createOrderPayload sdkUndef).2.2 createOrderPayload rfl).2
      (mkError "PayPal credentials not configured") (by decide)).1
  · exact (((c1_envelope envUnset createOrderPayload sdkUndef).2.2 createOrderPayload rfl).2
      (mkError "PayPal credentials not configured") (by decide)).2

/-! ### C2 -/

/-- C2, counterexample. The claim says the code is the statusCode of the error
whenever one is present and that the message is the message of the error. The
catch block instead computes them with JS truthiness fallbacks
(`error.statusCode || 500`, `error.message || ...`): a thrown error with
statusCode 0 and empty message (possible for the awaited SDK call, which the
code does not constrain) yields code 500 and message `Internal server error`. -/
theorem c2_counterexample :
    mainErr (mainBody envProd createOrderPayload sdkZero) = some ⟨"", some 0, "stk"⟩ ∧
    getPropD (handler envProd createOrderPayload sdkZero).1 "code" ≠ .number 0 ∧
    getPropD (handler envProd createOrderPayload sdkZero).1 "message" ≠ .string "" :=
  ⟨by decide, ne_of_jsToString_ne (by decide), ne_of_jsToString_ne (by decide)⟩

/-- C2, amended: whenever the try block throws (credential loading, SDK call,
or response-shape check), the handler returns the catch-block envelope: code is
the statusCode of the error when present and nonzero and 500 otherwise,
message is the message of the error when nonempty and `Internal server error`
otherwise, and a `debug` stack field is present if and only if `NODE_ENV` is
not `production`. -/
theorem c2_amended (env : Env) (body payload : JSVal) (sdk : SDKRequest → SDKOutcome)
    (e : JSError)
    (hp : parsePayload body = .ok payload)
    (hm : mainErr (mainBody env payload sdk) = some e) :
    (handler env body sdk).1 = catchResponse env e ∧
    getPropD (handler env body sdk).1 "status" = .string "error" ∧
    getPropD (handler env body sdk).1 "code" =
      .number (match e.statusCode with | some c => if c == 0 then 500 else c | none => 500) ∧
    getPropD (handler env body sdk).1 "message" =
      .string (if e.message == "" then "Internal server error" else e.message) ∧
    hasKey (handler env body sdk).1 "debug" = !(env.NODE_ENV == some "production") := by
  have h1 : (handler env body sdk).1 = catchResponse env e := by
    unfold mainErr at hm
    simp only [handler, hp]
    unfold runMain
    split
    · next r tr heq => rw [heq] at hm; simp at hm
    · next e2 tr heq =>
        rw [heq] at hm
        simp only [Option.some.injEq] at hm
        rw [hm]
  refine ⟨h1, ?_, ?_, ?_, ?_⟩
  · rw [h1]; unfold catchResponse; repeat' split
    all_goals rfl
  · rw [h1]; unfold catchResponse; repeat' split
    all_goals rfl
  · rw [h1]; unfold catchResponse; repeat' split
    all_goals rfl
  · rw [h1]; unfold catchResponse
    cases hB : (env.NODE_ENV == some "production")
    · rfl
    · rfl

/-- C2, witness: an SDK rejection with statusCode 402 and message `boom`, in
production mode, surfaces as a code-402 envelope with that message and no
debug field. -/
theorem c2_amended_witness :
    mainErr (mainBody envProd createOrderPayload sdk402) = some ⟨"boom", some 402, "stk"⟩ ∧
    getPropD (handler envProd createOrderPayload sdk402).1 "code" = .number 402 ∧
    getPropD (handler envProd createOrderPayload sdk402).1 "message" = .string "boom" ∧
    hasKey (handler envProd createOrderPayload sdk402).1 "debug" = false := by
  have h := c2_amended envProd createOrderPayload createOrderPayload sdk402
    ⟨"boom", some 402, "stk"⟩ rfl (by decide)
  exact ⟨by decide, h.2.2.1, h.2.2.2.1, h.2.2.2.2⟩

/-! ### C3 -/

/-- C3: with credentials configured (the case without them is the subject of
C8, since the credential check precedes the validations), a createOrder
request whose `data.amount` parses via `parseFloat` to NaN or to a value at
most zero receives the fixed envelope status error, code 400, message
`Invalid amount specified`, and no SDK call is made. -/
theorem c3_invalid_amount (env : Env) (body payload : JSVal) (sdk : SDKRequest → SDKOutcome)
    (hc : credsOK env = true)
    (hp : parsePayload body = .ok payload)
    (ha : getPropD payload "action" = .string "createOrder")
    (hd : falsy (getPropD payload "data") = false)
    (ham : jsParseFloat (getPropD (getPropD payload "data") "amount") = none ∨
           ∃ q, jsParseFloat (getPropD (getPropD payload "data") "amount") = some q ∧ q ≤ 0) :
    handler env body sdk = (errJson 400 "Invalid amount specified", []) := by
  obtain ⟨fs, hfs⟩ := eq_object_of_getPropD_string ha
  subst hfs
  simp only [handler, hp]
  unfold runMain
  suffices h : mainBody env (.object fs) sdk = (.ok (errJson 400 "Invalid amount specified"), []) by
    rw [h]
  have h1 : getProp (JSVal.object fs) "action" = .ok (.string "createOrder") := by
    rw [getProp_object, ha]
  have h2 : getProp (JSVal.object fs) "data" = .ok (getPropD (.object fs) "data") :=
    getProp_object fs "data"
  have h4 : getProp (getPropD (.object fs) "data") "amount" =
      .ok (getPropD (getPropD (.object fs) "data") "amount") := getProp_of_not_falsy hd _
  have hf : falsy (JSVal.string "createOrder") = false := by decide
  have hs : isStr (JSVal.string "createOrder") "createOrder" = true := by decide
  rcases ham with h | ⟨q, hq, hle⟩
  · simp only [mainBody, h1, h2, h4, hf, hd, hs, createPayPalClient_ok hc, h,
      Bool.false_eq_true, if_false, if_true]
  · simp only [mainBody, h1, h2, h4, hf, hd, hs, createPayPalClient_ok hc, hq,
      Bool.false_eq_true, if_false, if_true]
    rw [if_pos hle]

/-- C3, witness: amount `-5` parses to a negative number and is rejected. -/
theorem c3_witness :
    handler envDev badAmountPayload sdkUndef = (errJson 400 "Invalid amount specified", []) :=
  c3_invalid_amount envDev badAmountPayload badAmountPayload sdkUndef (by decide) rfl rfl
    (by decide) (Or.inr ⟨-5, by decide, by decide⟩)

/-! ### C4 -/

/-- C4: with credentials configured (see C8 for the other case), a
captureOrder request whose `data.orderId` is absent or whose string form does
not match `^[A-Z0-9]{17}$` receives the fixed envelope status error, code 400,
message `Invalid order ID`, and no SDK call is made. -/
theorem c4_invalid_order_id (env : Env) (body payload : JSVal) (sdk : SDKRequest → SDKOutcome)
    (hc : credsOK env = true)
    (hp : parsePayload body = .ok payload)
    (ha : getPropD payload "action" = .string "captureOrder")
    (hd : falsy (getPropD payload "data") = false)
    (hid : getPropD (getPropD payload "data") "orderId" = .undefined ∨
           orderIdPattern (jsToString (getPropD (getPropD payload "data") "orderId")) = false) :
    handler env body sdk = (errJson 400 "Invalid order ID", []) := by
  obtain ⟨fs, hfs⟩ := eq_object_of_getPropD_string ha
  subst hfs
  simp only [handler, hp]
  unfold runMain
  suffices h : mainBody env (.object fs) sdk = (.ok (errJson 400 "Invalid order ID"), []) by
    rw [h]
  have h1 : getProp (JSVal.object fs) "action" = .ok (.string "captureOrder") := by
    rw [getProp_object, ha]
  have h2 : getProp (JSVal.object fs) "data" = .ok (getPropD (.object fs) "data") :=
    getProp_object fs "data"
  have h4 : getProp (getPropD (.object fs) "data") "orderId" =
      .ok (getPropD (getPropD (.object fs) "data") "orderId") := getProp_of_not_falsy hd _
  have hf : falsy (JSVal.string "captureOrder") = false := by decide
  have hs1 : isStr (JSVal.string "captureOrder") "createOrder" = false := by decide
  have hs2 : isStr (JSVal.string "captureOrder") "captureOrder" = true := by decide
  have hcond : (falsy (getPropD (getPropD (.object fs) "data") "orderId")
      || !orderIdPattern (jsToString (getPropD (getPropD (.object fs) "data") "orderId"))) = true := by
    rcases hid with h | h
    · rw [h]; decide
    · rw [h]; simp
  simp only [mainBody, h1, h2, h4, hf, hd, hs1, hs2, Bool.false_eq_true, if_false, if_true,
    createPayPalClient_ok hc, hcond]

/-- C4, witness: the order id `bad` fails the pattern and is rejected. -/
theorem c4_witness :
    handler envDev badOrderIdPayload sdkUndef = (errJson 400 "Invalid order ID", []) :=
  c4_invalid_order_id envDev badOrderIdPayload badOrderIdPayload sdkUndef (by decide) rfl rfl
    (by decide) (Or.inr (by decide))

/-! ### C5 -/

/-- C5, counterexample. The claim covers every present body whose parsed
payload lacks action or data, but the body `"null"` parses to the JS value
`null`, and reading `null.action` throws: the handler answers with the
catch-block TypeError envelope (code 500), not with the fixed 400. -/
theorem c5_counterexample :
    jsonParse "null" = some .null ∧
    getPropD (handler envProd (.string "null") sdkUndef).1 "message" =
      .string "Cannot read properties of null (reading action)" ∧
    (handler envProd (.string "null") sdkUndef).1 ≠
      errJson 400 "Missing action or data parameter" :=
  ⟨rfl, rfl, ne_of_key_ne "message" (by decide)⟩

/-- C5, amended: for every request with a present body whose parsed payload is
neither `null` nor `undefined` and lacks an action field or a data field
(missing or falsy), the handler returns the fixed envelope status error, code
400, message `Missing action or data parameter`, and makes no SDK call. -/
theorem c5_amended (env : Env) (body payload : JSVal) (sdk : SDKRequest → SDKOutcome)
    (hp : parsePayload body = .ok payload)
    (hn : payload ≠ .null) (hu : payload ≠ .undefined)
    (hmiss : falsy (getPropD payload "action") = true ∨ falsy (getPropD payload "data") = true) :
    handler env body sdk = (errJson 400 "Missing action or data parameter", []) := by
  simp only [handler, hp]
  unfold runMain
  suffices h : mainBody env payload sdk =
      (.ok (errJson 400 "Missing action or data parameter"), []) by rw [h]
  have h1 := getProp_of_ne hn hu "action"
  have h2 := getProp_of_ne hn hu "data"
  cases hact : falsy (getPropD payload "action")
  case false =>
    have hdata : falsy (getPropD payload "data") = true := by
      rcases hmiss with h | h
      · simp [h] at hact
      · exact h
    simp only [mainBody, h1, h2, hact, hdata, Bool.false_eq_true, if_false, if_true]
  case true =>
    simp only [mainBody, h1, hact, if_true]

/-- C5, witness: a payload with an action but no data is rejected with the
fixed 400 and no SDK call. -/
theorem c5_amended_witness :
    handler envProd missingDataPayload sdkUndef =
      (errJson 400 "Missing action or data parameter", []) :=
  c5_amended envProd missingDataPayload missingDataPayload sdkUndef rfl
    (fun h => JSVal.noConfusion h) (fun h => JSVal.noConfusion h) (Or.inr (by decide))

/-! ### C6 -/

/-- C6, counterexample. The claim covers every string body that is not valid
JSON, but the empty string (falsy, and not valid JSON) is rejected by the
body-required check first: the handler answers `Request body is required`,
not `Invalid JSON format`. -/
theorem c6_counterexample :
    jsonParse "" = none ∧
    handler envProd (.string "") sdkUndef = (errJson 400 "Request body is required", []) ∧
    (handler envProd (.string "") sdkUndef).1 ≠ errJson 400 "Invalid JSON format" :=
  ⟨rfl, rfl, ne_of_key_ne "message" (by decide)⟩

/-- C6, amended: a nonempty string body that is not valid JSON receives the
fixed envelope status error, code 400, message `Invalid JSON format` (with no
SDK call); a truthy non-string body is used as the payload directly, without
any parse step (the handler behaves as the post-parse stage applied to the
body itself). Falsy bodies of either kind are caught earlier by the
body-required check. -/
theorem c6_amended (env : Env) (sdk : SDKRequest → SDKOutcome) (body : JSVal) :
    (∀ s, body = .string s → s ≠ "" → jsonParse s = none →
      handler env body sdk = (errJson 400 "Invalid JSON format", [])) ∧
    (isString body = false → falsy body = false →
      handler env body sdk = runMain env body sdk) := by
  constructor
  · rintro s rfl hne hj
    have hf : falsy (JSVal.string s) = false := by
      simp [falsy, hne]
    simp [handler, parsePayload, hf, hj]
  · intro hs hf
    cases body
    case string s => simp [isString] at hs
    all_goals simp [handler, parsePayload, falsy] at hf ⊢
    all_goals simp [hf]

/-- C6, witness: a lone opening brace is rejected as invalid JSON, and an
object body is processed directly as the payload. -/
theorem c6_amended_witness :
    handler envProd (.string "\x7b") sdkUndef = (errJson 400 "Invalid JSON format", []) ∧
    handler envProd unknownActionPayload sdkUndef =
      runMain envProd unknownActionPayload sdkUndef :=
  ⟨(c6_amended envProd sdkUndef (.string "\x7b")).1 "\x7b" rfl (by decide) rfl,
   (c6_amended envProd sdkUndef unknownActionPayload).2 (by decide) (by decide)⟩

/-! ### C7 -/

/-- C7: with credentials configured (the check precedes the switch; see C8),
a request whose payload carries truthy action and data but whose action is
neither `createOrder` nor `captureOrder` receives the fixed envelope status
error, code 400, message `Unsupported action`, and no SDK call is made. -/
theorem c7_unsupported_action (env : Env) (body payload : JSVal) (sdk : SDKRequest → SDKOutcome)
    (hc : credsOK env = true)
    (hp : parsePayload body = .ok payload)
    (ha : falsy (getPropD payload "action") = false)
    (hd : falsy (getPropD payload "data") = false)
    (h1 : isStr (getPropD payload "action") "createOrder" = false)
    (h2 : isStr (getPropD payload "action") "captureOrder" = false) :
    handler env body sdk = (errJson 400 "Unsupported action", []) := by
  obtain ⟨fs, hfs⟩ := eq_object_of_truthy_prop ha
  subst hfs
  simp only [handler, hp]
  unfold runMain
  suffices h : mainBody env (.object fs) sdk = (.ok (errJson 400 "Unsupported action"), []) by
    rw [h]
  simp only [mainBody, getProp_object, ha, hd, h1, h2, Bool.false_eq_true, if_false,
    createPayPalClient_ok hc]

/-- C7, witness: the action `deleteOrder` falls through to the default
branch. -/
theorem c7_witness :
    handler envDev unknownActionPayload sdkUndef = (errJson 400 "Unsupported action", []) :=
  c7_unsupported_action envDev unknownActionPayload unknownActionPayload sdkUndef (by decide)
    rfl (by decide) (by decide) (by decide) (by decide)

/-! ### C8 -/

/-- C8: when the payload passes the body, JSON and action/data checks but
either credential variable is unset or empty, the handler returns the
catch-block envelope with status error, code 500, message
`PayPal credentials not configured`, and makes no SDK call — in particular,
requests with invalid amounts or order ids get this 500 rather than their 400,
because the credential check runs first. -/
theorem c8_missing_credentials (env : Env) (body payload : JSVal) (sdk : SDKRequest → SDKOutcome)
    (hp : parsePayload body = .ok payload)
    (ha : falsy (getPropD payload "action") = false)
    (hd : falsy (getPropD payload "data") = false)
    (hc : credsOK env = false) :
    getPropD (handler env body sdk).1 "status" = .string "error" ∧
    getPropD (handler env body sdk).1 "code" = .number 500 ∧
    getPropD (handler env body sdk).1 "message" = .string "PayPal credentials not configured" ∧
    (handler env body sdk).2 = [] := by
  obtain ⟨fs, hfs⟩ := eq_object_of_truthy_prop ha
  subst hfs
  have hm : mainBody env (.object fs) sdk =
      (.error (mkError "PayPal credentials not configured"), []) := by
    simp only [mainBody, getProp_object, ha, hd, Bool.false_eq_true, if_false,
      createPayPalClient_err hc]
  have h1 : handler env body sdk =
      (catchResponse env (mkError "PayPal credentials not configured"), []) := by
    simp only [handler, hp]
    unfold runMain
    rw [hm]
  rw [h1]
  refine ⟨?_, ?_, ?_, rfl⟩ <;>
    · unfold catchResponse
      cases hB : (env.NODE_ENV == some "production") <;> rfl

/-- C8, witness: with no credentials, a createOrder request with a bad amount
(here a perfectly valid one would behave alike) gets the 500 envelope. -/
theorem c8_witness :
    getPropD (handler envUnset createOrderPayload sdkUndef).1 "status" = .string "error" ∧
    getPropD (handler envUnset createOrderPayload sdkUndef).1 "code" = .number 500 ∧
    getPropD (handler envUnset createOrderPayload sdkUndef).1 "message" =
      .string "PayPal credentials not configured" ∧
    (handler envUnset createOrderPayload sdkUndef).2 = [] :=
  c8_missing_credentials envUnset createOrderPayload createOrderPayload sdkUndef rfl
    (by decide) (by decide) (by decide)

/-! ### C9 -/

/-- C9: for every createOrder request with a valid positive amount, exactly
one SDK call is made; its request body carries a single purchase unit whose
amount object has `currency_code` equal to `data.currency` when that value is
truthy and the string `EUR` otherwise, and `value` equal to the parsed amount
formatted by `toFixed(2)`. -/
theorem c9_purchase_unit (env : Env) (body payload : JSVal) (sdk : SDKRequest → SDKOutcome)
    (q : ℚ)
    (hc : credsOK env = true)
    (hp : parsePayload body = .ok payload)
    (ha : getPropD payload "action" = .string "createOrder")
    (hd : falsy (getPropD payload "data") = false)
    (hq : jsParseFloat (getPropD (getPropD payload "data") "amount") = some q)
    (hpos : 0 < q) :
    (handler env body sdk).2 =
      [SDKRequest.create "return=representation"
        (orderCreateBody (getPropD (getPropD payload "data") "currency") q)] ∧
    purchaseUnitAmount (orderCreateBody (getPropD (getPropD payload "data") "currency") q) =
      .object [("currency_code",
                 if falsy (getPropD (getPropD payload "data") "currency") = true then .string "EUR"
                 else getPropD (getPropD payload "data") "currency"),
               ("value", .string (toFixed2 q))] := by
  obtain ⟨fs, hfs⟩ := eq_object_of_getPropD_string ha
  subst hfs
  refine ⟨?_, rfl⟩
  simp only [handler, hp]
  rw [runMain_snd]
  have h1 : getProp (JSVal.object fs) "action" = .ok (.string "createOrder") := by
    rw [getProp_object, ha]
  have h2 : getProp (JSVal.object fs) "data" = .ok (getPropD (.object fs) "data") :=
    getProp_object fs "data"
  have h4 : getProp (getPropD (.object fs) "data") "amount" =
      .ok (getPropD (getPropD (.object fs) "data") "amount") := getProp_of_not_falsy hd _
  have h5 : getProp (getPropD (.object fs) "data") "currency" =
      .ok (getPropD (getPropD (.object fs) "data") "currency") := getProp_of_not_falsy hd _
  have hf : falsy (JSVal.string "createOrder") = false := by decide
  have hs : isStr (JSVal.string "createOrder") "createOrder" = true := by decide
  simp only [mainBody, h1, h2, h4, h5, hf, hd, hs, Bool.false_eq_true, if_false, if_true,
    createPayPalClient_ok hc, hq, if_neg (not_le.mpr hpos)]
  repeat' split
  all_goals rfl

/-- C9, witness: amount `10` with currency `USD` yields a single create call
whose purchase unit carries `USD` and the value string `10.00`. -/
theorem c9_witness :
    (handler envDev createOrderPayload sdkUndef).2 =
      [SDKRequest.create "return=representation" (orderCreateBody (.string "USD") 10)] ∧
    purchaseUnitAmount (orderCreateBody (.string "USD") 10) =
      .object [("currency_code", .string "USD"), ("value", .string "10.00")] := by
  have h := c9_purchase_unit envDev createOrderPayload createOrderPayload sdkUndef 10
    (by decide) rfl rfl (by decide) (by decide) (by decide)
  exact ⟨h.1, h.2⟩

/-! ### C10 -/

/-- C10, counterexample. The claim covers every createOrder invocation whose
SDK response contains no approve link, but when the result carries no `links`
at all, `links.find` is a TypeError on `undefined`: the handler answers with
the TypeError message, not `Missing approval URL in PayPal response`. -/
theorem c10_counterexample :
    sdkNoLinks (.create "return=representation" (orderCreateBody (.string "USD") 10)) =
      .ok (.object [("result", .object [("id", .string "X")])]) ∧
    getPropD (getPropD (.object [("result", .object [("id", .string "X")])]) "result") "links" =
      .undefined ∧
    jsToString (getPropD (handler envProd createOrderPayload sdkNoLinks).1 "code") = "500" ∧
    getPropD (handler envProd createOrderPayload sdkNoLinks).1 "message" ≠
      .string "Missing approval URL in PayPal response" :=
  ⟨rfl, rfl, by decide, ne_of_jsToString_ne (by decide)⟩

/-- C10, amended: for a createOrder invocation with a valid amount, when the
SDK response yields a `result` whose `links` is an array, scanning it for the
first link with rel `approve` does not itself throw, and that scan produces no
link or one whose `href` is falsy, the handler returns an error envelope with
status error, code 500 and message `Missing approval URL in PayPal response`
rather than a success response. -/
theorem c10_amended (env : Env) (body payload : JSVal) (sdk : SDKRequest → SDKOutcome)
    (q : ℚ) (resp result link : JSVal) (ls : List JSVal)
    (hc : credsOK env = true)
    (hp : parsePayload body = .ok payload)
    (ha : getPropD payload "action" = .string "createOrder")
    (hd : falsy (getPropD payload "data") = false)
    (hq : jsParseFloat (getPropD (getPropD payload "data") "amount") = some q)
    (hpos : 0 < q)
    (hr : sdk (.create "return=representation"
           (orderCreateBody (getPropD (getPropD payload "data") "currency") q)) = .ok resp)
    (hres : getProp resp "result" = .ok result)
    (hlinks : getProp result "links" = .ok (.array ls))
    (hfind : findApprove ls = .ok link)
    (hhref : falsy (optChain link "href") = true) :
    getPropD (handler env body sdk).1 "status" = .string "error" ∧
    getPropD (handler env body sdk).1 "code" = .number 500 ∧
    getPropD (handler env body sdk).1 "message" =
      .string "Missing approval URL in PayPal response" := by
  obtain ⟨fs, hfs⟩ := eq_object_of_getPropD_string ha
  subst hfs
  have h1 : getProp (JSVal.object fs) "action" = .ok (.string "createOrder") := by
    rw [getProp_object, ha]
  have h2 : getProp (JSVal.object fs) "data" = .ok (getPropD (.object fs) "data") :=
    getProp_object fs "data"
  have h4 : getProp (getPropD (.object fs) "data") "amount" =
      .ok (getPropD (getPropD (.object fs) "data") "amount") := getProp_of_not_falsy hd _
  have h5 : getProp (getPropD (.object fs) "data") "currency" =
      .ok (getPropD (getPropD (.object fs) "data") "currency") := getProp_of_not_falsy hd _
  have hf : falsy (JSVal.string "createOrder") = false := by decide
  have hs : isStr (JSVal.string "createOrder") "createOrder" = true := by decide
  have hm : mainBody env (.object fs) sdk =
      (.error (mkError "Missing approval URL in PayPal response"),
       [.create "return=representation"
          (orderCreateBody (getPropD (getPropD (.object fs) "data") "currency") q)]) := by
    simp only [mainBody, h1, h2, h4, h5, hf, hd, hs, Bool.false_eq_true, if_false, if_true,
      createPayPalClient_ok hc, hq, if_neg (not_le.mpr hpos), hr, hres, hlinks,
      linksFindApprove, hfind, hhref]
  have hh : (handler env body sdk).1 =
      catchResponse env (mkError "Missing approval URL in PayPal response") := by
    simp only [handler, hp]
    unfold runMain
    rw [hm]
  rw [hh]
  refine ⟨?_, ?_, ?_⟩ <;>
    · unfold catchResponse
      cases hB : (env.NODE_ENV == some "production") <;> rfl

/-- C10, witness: an SDK response whose `links` array is empty produces the
500 `Missing approval URL in PayPal response` envelope. -/
theorem c10_amended_witness :
    getPropD (handler envProd createOrderPayload sdkEmptyLinks).1 "status" = .string "error" ∧
    getPropD (handler envProd createOrderPayload sdkEmptyLinks).1 "code" = .number 500 ∧
    getPropD (handler envProd createOrderPayload sdkEmptyLinks).1 "message" =
      .string "Missing approval URL in PayPal response" :=
  c10_amended envProd createOrderPayload createOrderPayload sdkEmptyLinks 10
    (.object [("result", .object [("links", .array [])])])
    (.object [("links", .array [])]) .undefined []
    (by decide) rfl rfl (by decide) (by decide) (by decide) rfl rfl rfl rfl (by decide)

end Paypal
